import Mathlib

/-!
Shallow embedding of src/VerifierAlgorithm.ts of the did-jwt repository.

The verifier core depends on external collaborators (hash functions,
base64url/base64/hex/UTF-8 codecs, secp256k1 verify/recover, Ed25519
verify).  Those are modelled as an abstract record of functions `Prims`.
A collaborator call that may raise an exception in JavaScript is modelled
as returning `Option` (`none` = the call threw).  JavaScript exceptions
propagating out of the verifier are modelled as `Except.error`; the
distinguished error values mirror the messages thrown by the source.
Byte arrays (`Uint8Array`) are modelled as `List Nat`.
-/

namespace DidJwt

/-- Bytes of a `Uint8Array`. -/
abbrev Bytes := List Nat

/-- Mirrors `EcdsaSignature` from util.ts: `{r: string, s: string, recoveryParam?: number}`.
`r` and `s` are hex strings; `recoveryParam` is optional and may be any number. -/
structure EcdsaSignature where
  r : String
  s : String
  recoveryParam : Option Int := none
deriving DecidableEq

/-- Mirrors the `PublicKey` descriptor from did-resolver: all key-material
fields are optional; `id` stands in for the passthrough metadata. -/
structure PublicKey where
  id : String := ""
  publicKeyHex : Option String := none
  ethereumAddress : Option String := none
  publicKeyBase64 : Option String := none
deriving DecidableEq

/-- The errors the verifier core can propagate to its caller:
the three `throw new Error(...)` sites of VerifierAlgorithm.ts, plus
`primitiveFailure` for an exception raised by a collaborator primitive
that the core does not catch and therefore re-propagates. -/
inductive VerifyError where
  /-- thrown by `toSignatureObject`: message `wrong signature length` -/
  | wrongSignatureLength
  /-- message `Signature invalid for JWT` -/
  | signatureInvalid
  /-- message `Unsupported algorithm ${alg}` -/
  | unsupportedAlgorithm (alg : String)
  /-- an exception raised inside a collaborator primitive, not caught by the core -/
  | primitiveFailure
deriving DecidableEq

/-- The `Verifier` type of VerifierAlgorithm.ts:
`(data, signature, authenticators, eip155?, chainId?) => PublicKey`.
The `Algorithms` interface's index signature assigns this type to every
lookup `algorithms[name]`, whatever value the lookup actually finds. -/
abbrev Verifier := String → String → List PublicKey → Bool → Option Int →
  Except VerifyError PublicKey

/-- The collaborator primitives consumed by VerifierAlgorithm.ts.
`Key` is the opaque type of elliptic-curve points returned by
`secp256k1.recoverPubKey`.  A result of `none` on `keyVerify`,
`recoverPubKey`, `base64ToBytes` or `ed25519Verify` models the JavaScript
call throwing an exception. -/
structure Prims where
  /-- type of recovered secp256k1 public keys -/
  Key : Type
  /-- `sha256(data)` from Digest.ts -/
  sha256 : String → Bytes
  /-- `hashPersonalMessage(data)` from Digest.ts -/
  hashPersonalMessage : String → Bytes
  /-- `base64urlToBytes` from util.ts (applied to the signature string) -/
  base64urlToBytes : String → Bytes
  /-- `base64ToBytes` from util.ts; its argument is the raw
  `publicKeyBase64` field, which may be absent (`none` = `undefined`);
  result `none` models a thrown exception -/
  base64ToBytes : Option String → Option Bytes
  /-- `bytesToHex` from util.ts -/
  bytesToHex : Bytes → String
  /-- `secp256k1.keyFromPublic(hex, 'hex').verify(hash, sigObj)`;
  `none` models either call throwing -/
  keyVerify : String → Bytes → EcdsaSignature → Option Bool
  /-- `secp256k1.recoverPubKey(hash, sigObj, recoveryParam)`; `none` models a throw -/
  recoverPubKey : Bytes → EcdsaSignature → Option Int → Option Key
  /-- `key.encode('hex', compressed)` (`false` = uncompressed) -/
  encodeHex : Key → Bool → String
  /-- `toEthereumAddress` from Digest.ts -/
  toEthereumAddress : String → String
  /-- `encode(data)` from stablelib/utf8 -/
  encodeUtf8 : String → Bytes
  /-- `verify(publicKey, message, signature)` from stablelib/ed25519;
  `none` models a throw (e.g. bad public key size) -/
  ed25519Verify : Bytes → Bytes → Bytes → Option Bool
  /-- the member of the JavaScript builtin `Object.prototype` that a table
  lookup `algorithms[name]` finds for an inherited property name (such as
  `toString` or `constructor`), carried at the `Verifier` type the table's
  index signature assigns to every lookup; it is a truthy non-verifier
  value whose behavior when invoked is outside this model -/
  protoImpl : String → Verifier

/-- `Uint8Array.prototype.slice(a, b)` on byte lists. -/
def uslice (xs : Bytes) (a b : Nat) : Bytes := (xs.take b).drop a

/-- Line-by-line translation of `calculateSigRecovery` (VerifierAlgorithm.ts):
`return v < 27 ? v : (chainId ? v - (2 * chainId + 35) : v - 27)`.
A present chain id of `0` is falsy in JavaScript, hence the inner test. -/
def calculateSigRecovery (v : Int) (chainId : Option Int := none) : Int :=
  if v < 27 then v
  else
    match chainId with
    | some c => if c ≠ 0 then v - (2 * c + 35) else v - 27
    | none => v - 27

/-- Translation of `toSignatureObject` (VerifierAlgorithm.ts). -/
def toSignatureObject (P : Prims) (signature : String) (recoverable : Bool := false)
    (chainId : Option Int := none) : Except VerifyError EcdsaSignature :=
  let rawsig : Bytes := P.base64urlToBytes signature
  if rawsig.length ≠ (if recoverable then 65 else 64) then
    .error .wrongSignatureLength
  else
    let r : String := P.bytesToHex (uslice rawsig 0 32)
    let s : String := P.bytesToHex (uslice rawsig 32 64)
    let sigObj : EcdsaSignature := { r := r, s := s }
    if recoverable then
      .ok { sigObj with recoveryParam := some (calculateSigRecovery ((rawsig.getD 64 0 : Nat) : Int) chainId) }
    else
      .ok sigObj

/-- Translation of `sha256OrPersonal` (VerifierAlgorithm.ts). -/
def sha256OrPersonal (P : Prims) (data : String) (ethPersonal : Bool) : Bytes :=
  if !ethPersonal then P.sha256 data else P.hashPersonalMessage data

/-- The candidate predicate of the key scan in `verifyES256K`:
`try { return secp256k1.keyFromPublic(publicKeyHex, 'hex').verify(hash, sigObj) } catch (err) { return false }`.
A primitive exception (`none`) is caught and becomes `false`. -/
def es256kKeyCheck (P : Prims) (hash : Bytes) (sigObj : EcdsaSignature) (a : PublicKey) : Bool :=
  match a.publicKeyHex with
  | some pk =>
    match P.keyVerify pk hash sigObj with
    | some b => b
    | none => false
  | none => false

/-- Translation of `checkSignatureAgainstSigner` (VerifierAlgorithm.ts).
`secp256k1.recoverPubKey` is called with no surrounding try/catch, so a
primitive exception (`none`) propagates as an error. -/
def checkSignatureAgainstSigner (P : Prims) (data : String) (authenticators : List PublicKey)
    (ethPersonal : Bool) (sigObj : EcdsaSignature) : Except VerifyError (Option PublicKey) :=
  let hash : Bytes := sha256OrPersonal P data ethPersonal
  match P.recoverPubKey hash sigObj sigObj.recoveryParam with
  | none => .error .primitiveFailure
  | some recoveredKey =>
    let recoveredPublicKeyHex : String := P.encodeHex recoveredKey false
    let recoveredCompressedPublicKeyHex : String := P.encodeHex recoveredKey true
    let recoveredAddress : String := P.toEthereumAddress recoveredPublicKeyHex
    .ok (authenticators.find? (fun a =>
      a.publicKeyHex == some recoveredPublicKeyHex ||
      a.publicKeyHex == some recoveredCompressedPublicKeyHex ||
      a.ethereumAddress == some recoveredAddress))

/-- `Array.prototype.map` with a callback that may throw: the first
exception propagates and aborts the whole map. -/
def mapExcept (f : α → Except ε β) : List α → Except ε (List β)
  | [] => .ok []
  | a :: rest =>
    match f a with
    | .error e => .error e
    | .ok b =>
      match mapExcept f rest with
      | .error e => .error e
      | .ok bs => .ok (b :: bs)

/-- The `let signatures` block of `verifyRecoverableES256K`: the
signature-form heuristic on the encoded string's length.  A string longer
than 86 characters is decoded once as a 65-byte recoverable signature with
the chain id; otherwise two signature objects with recovery parameters 0
and 1 are built from the 64-byte decode. -/
def recoverableSigCandidates (P : Prims) (signature : String)
    (chainId : Option Int) : Except VerifyError (List EcdsaSignature) :=
  if signature.length > 86 then
    match toSignatureObject P signature true chainId with
    | .error e => .error e
    | .ok s => .ok [s]
  else
    match toSignatureObject P signature false chainId with
    | .error e => .error e
    | .ok so => .ok [{ so with recoveryParam := some 0 }, { so with recoveryParam := some 1 }]

/-- Translation of `verifyRecoverableES256K` (VerifierAlgorithm.ts). -/
def verifyRecoverableES256K (P : Prims) (data signature : String)
    (authenticators : List PublicKey) (ethPersonal : Bool := false)
    (chainId : Option Int := none) : Except VerifyError PublicKey :=
  match recoverableSigCandidates P signature chainId with
  | .error e => .error e
  | .ok signatures =>
    match mapExcept (checkSignatureAgainstSigner P data authenticators ethPersonal) signatures with
    | .error e => .error e
    | .ok results =>
      match results.filterMap id with
      | [] => .error .signatureInvalid
      | s :: _ => .ok s

/-- Translation of `verifyES256K` (VerifierAlgorithm.ts). -/
def verifyES256K (P : Prims) (data signature : String) (authenticators : List PublicKey)
    (ethPersonal : Bool := false) : Except VerifyError PublicKey :=
  let hash : Bytes := sha256OrPersonal P data ethPersonal
  match toSignatureObject P signature with
  | .error e => .error e
  | .ok sigObj =>
    let fullPublicKeys : List PublicKey := authenticators.filter (fun a => a.publicKeyHex.isSome)
    let ethAddressKeys : List PublicKey := authenticators.filter (fun a => a.ethereumAddress.isSome)
    match fullPublicKeys.find? (es256kKeyCheck P hash sigObj) with
    | some signer => .ok signer
    | none =>
      if ethAddressKeys.length > 0 then
        verifyRecoverableES256K P data signature ethAddressKeys ethPersonal
      else
        .error .signatureInvalid

/-- The candidate check of `verifyEd25519`:
`verify(base64ToBytes(publicKeyBase64), clear, sig)` with no try/catch,
so a primitive exception (`none`) propagates as an error. -/
def ed25519KeyCheck (P : Prims) (clear sig : Bytes) (a : PublicKey) : Except VerifyError Bool :=
  match P.base64ToBytes a.publicKeyBase64 with
  | none => .error .primitiveFailure
  | some keyBytes =>
    match P.ed25519Verify keyBytes clear sig with
    | none => .error .primitiveFailure
    | some b => .ok b

/-- `Array.prototype.find` with a callback that may throw: the first
exception propagates and aborts the scan. -/
def findExcept (p : α → Except ε Bool) : List α → Except ε (Option α)
  | [] => .ok none
  | a :: rest =>
    match p a with
    | .error e => .error e
    | .ok true => .ok (some a)
    | .ok false => findExcept p rest

/-- Translation of `verifyEd25519` (VerifierAlgorithm.ts). -/
def verifyEd25519 (P : Prims) (data signature : String)
    (authenticators : List PublicKey) : Except VerifyError PublicKey :=
  let clear : Bytes := P.encodeUtf8 data
  let sig : Bytes := P.base64urlToBytes signature
  match findExcept (ed25519KeyCheck P clear sig) authenticators with
  | .error e => .error e
  | .ok (some signer) => .ok signer
  | .ok none => .error .signatureInvalid

/-- The string-keyed property names of the JavaScript builtin
`Object.prototype`.  The `algorithms` table is a plain object literal, so a
lookup `algorithms[name]` that misses every own property still finds the
truthy member inherited from `Object.prototype` when `name` is one of
these. -/
def objectPrototypeProps : List String :=
  ["constructor", "hasOwnProperty", "isPrototypeOf", "propertyIsEnumerable",
   "toLocaleString", "toString", "valueOf", "__defineGetter__",
   "__defineSetter__", "__lookupGetter__", "__lookupSetter__", "__proto__"]

/-- The `algorithms` lookup `algorithms[name]`.  The four own properties of
the object literal come first; each entry adapts its implementation to the
common five-argument `Verifier` shape exactly as JavaScript does: arguments
beyond a function's declared parameters are ignored (`verifyES256K` takes
no chain id; `verifyEd25519` takes neither flag).  A name that is no own
property is then looked up on the prototype chain: for a property of
`Object.prototype` the lookup finds the inherited member (truthy), and only
otherwise is the result `undefined` (`none`). -/
def algorithms (P : Prims) (name : String) : Option Verifier :=
  if name = "ES256K" then
    some (fun data sig auths eip155 _ => verifyES256K P data sig auths eip155)
  else if name = "ES256K-R" then
    some (fun data sig auths eip155 chainId => verifyRecoverableES256K P data sig auths eip155 chainId)
  else if name = "Ed25519" then
    some (fun data sig auths _ _ => verifyEd25519 P data sig auths)
  else if name = "EdDSA" then
    some (fun data sig auths _ _ => verifyEd25519 P data sig auths)
  else if objectPrototypeProps.contains name then
    some (P.protoImpl name)
  else
    none

/-- Translation of the dispatcher `VerifierAlgorithm`. -/
def VerifierAlgorithm (P : Prims) (alg : String) : Except VerifyError Verifier :=
  match algorithms P alg with
  | some impl => .ok impl
  | none => .error (.unsupportedAlgorithm alg)

/-! Concrete instantiations used to evaluate the verifiers on closed inputs. -/

/-- A concrete signing input. -/
def msg0 : String := "m"

/-- A concrete encoded signature string (the codec is supplied per instance). -/
def sig0 : String := "s"

/-- A concrete unregistered algorithm identifier (as in the repository's tests). -/
def badAlg : String := "BADALGO"

/-- A concrete inherited property name of the JavaScript `Object.prototype`. -/
def protoName : String := "toString"

/-- A baseline concrete primitive record. -/
def trivPrims : Prims where
  Key := Unit
  sha256 := fun _ => []
  hashPersonalMessage := fun _ => []
  base64urlToBytes := fun _ => List.replicate 64 0
  base64ToBytes := fun _ => some []
  bytesToHex := fun _ => "H"
  keyVerify := fun _ _ _ => some false
  recoverPubKey := fun _ _ _ => some ()
  encodeHex := fun _ c => if c then "C" else "U"
  toEthereumAddress := fun _ => "A"
  encodeUtf8 := fun _ => []
  ed25519Verify := fun _ _ _ => some false
  protoImpl := fun _ => fun _ _ _ _ _ => .error .signatureInvalid

/-- Primitives where the Ed25519 verify throws on the key bytes `[1]`
and accepts the key bytes `[2]`. -/
def c1CexEdPrims : Prims :=
  { trivPrims with
    base64ToBytes := fun s =>
      match s with
      | some str => if str = "B" then some [1] else some [2]
      | none => some [0]
    ed25519Verify := fun k _ _ =>
      if k = [1] then none else if k = [2] then some true else some false }

/-- An Ed25519 candidate whose key material makes the primitive throw. -/
def edBad : PublicKey := { id := "bad", publicKeyBase64 := some "B" }

/-- An Ed25519 candidate whose key material the primitive accepts. -/
def edGood : PublicKey := { id := "good", publicKeyBase64 := some "G" }

/-- Primitives where public-key recovery throws for recovery parameter 0
and succeeds for recovery parameter 1. -/
def c1CexRecPrims : Prims :=
  { trivPrims with
    recoverPubKey := fun _ _ rp =>
      match rp with
      | some 0 => none
      | _ => some () }

/-- An address-only candidate matching the recovered address of `trivPrims`. -/
def cAddr0 : PublicKey := { id := "addr", ethereumAddress := some "A" }

/-- The signature object decoded by any instance whose hex codec returns `H`,
with recovery parameter 1. -/
def sigH1 : EcdsaSignature := { r := "H", s := "H", recoveryParam := some 1 }

/-- Primitives whose secp256k1 key decode throws for the hex string `BAD`
and verifies successfully for any other hex string. -/
def c1wPrims : Prims :=
  { trivPrims with
    keyVerify := fun pk _ _ => if pk = "BAD" then none else some true }

/-- A key-bearing candidate whose key material makes the primitive throw. -/
def aBadKey : PublicKey := { id := "badkey", publicKeyHex := some "BAD" }

/-- A key-bearing candidate that verifies under `c1wPrims`. -/
def aGoodKey : PublicKey := { id := "goodkey", publicKeyHex := some "GOOD" }

/-- Primitives whose recovery reflects the recovery parameter into the
recovered key, so that parameter 0 and parameter 1 recover different keys. -/
def c2Prims : Prims where
  Key := Option Int
  sha256 := fun _ => []
  hashPersonalMessage := fun _ => []
  base64urlToBytes := fun _ => List.replicate 64 0
  base64ToBytes := fun _ => some []
  bytesToHex := fun _ => "H"
  keyVerify := fun _ _ _ => some false
  recoverPubKey := fun _ _ rp => some rp
  encodeHex := fun k c =>
    (if c then "C" else "U") ++ (match k with | some 0 => "0" | some 1 => "1" | _ => "X")
  toEthereumAddress := fun s => "A" ++ s
  encodeUtf8 := fun _ => []
  ed25519Verify := fun _ _ _ => some false
  protoImpl := fun _ => fun _ _ _ _ _ => .error .signatureInvalid

/-- A candidate holding the uncompressed key recovered with parameter 1 under `c2Prims`. -/
def c2Auth : PublicKey := { id := "parity1", publicKeyHex := some "U1" }

/-- The signature object decoded by any instance whose hex codec returns `H`. -/
def sigH : EcdsaSignature := { r := "H", s := "H" }

/-- Primitives decoding the signature to 65 bytes whose recovery byte is 27. -/
def c5wPrims : Prims :=
  { trivPrims with base64urlToBytes := fun _ => List.replicate 64 0 ++ [27] }

/-- The signature object produced by `c5wPrims` on a recoverable decode
without a chain id: legacy byte 27 normalizes to 0. -/
def c5So : EcdsaSignature := { r := "H", s := "H", recoveryParam := some 0 }

/-- Primitives decoding the signature to 65 bytes whose recovery byte is 35,
the chain-bound encoding of recovery parameter 0 for chain id 0. -/
def c5cPrims : Prims :=
  { trivPrims with base64urlToBytes := fun _ => List.replicate 64 0 ++ [35] }

/-- The signature object produced by `c5cPrims` on a recoverable decode with
chain id 0: the chain id is falsy, the legacy branch runs and 35 - 27 = 8. -/
def c5cSo : EcdsaSignature := { r := "H", s := "H", recoveryParam := some 8 }

/-- Primitives whose key verification always reports a mismatch, forcing the
address fallback of `verifyES256K`. -/
def c7Prims : Prims := trivPrims

/-- A key-bearing candidate that does not verify under `c7Prims`. -/
def aHex7 : PublicKey := { id := "hex7", publicKeyHex := some "X" }

/-- An address-only candidate matching the address recovered under `c7Prims`. -/
def aAddr7 : PublicKey := { id := "addr7", ethereumAddress := some "A" }

/-- Primitives whose Ed25519 verification accepts every key. -/
def c8Prims : Prims :=
  { trivPrims with ed25519Verify := fun _ _ _ => some true }

/-- A bare Ed25519 candidate. -/
def a8 : PublicKey := { id := "ed8" }

/-- Primitives whose Ed25519 verification accepts exactly the empty key bytes,
which are what the codec yields for an absent `publicKeyBase64` field. -/
def c10Prims : Prims :=
  { trivPrims with
    base64ToBytes := fun s =>
      match s with
      | some _ => some [1]
      | none => some [],
    ed25519Verify := fun k _ _ => some (k = ([] : Bytes)) }

/-- A candidate carrying Ed25519 key material that does not verify under `c10Prims`. -/
def b10 : PublicKey := { id := "b10", publicKeyBase64 := some "x" }

/-- A candidate with no `publicKeyBase64` at all; under `c10Prims` the
primitive nevertheless accepts the bytes decoded from the absent field. -/
def a10 : PublicKey := { id := "a10" }

/-! Helper lemmas about the scan combinators. -/

/-- If a throwing map succeeds, every output comes from some input. -/
theorem mapExcept_ok_mem {α β ε : Type} {f : α → Except ε β} {l : List α} {rs : List β}
    (h : mapExcept f l = .ok rs) {r : β} (hr : r ∈ rs) : ∃ a ∈ l, f a = .ok r := by
  induction l generalizing rs with
  | nil =>
    simp only [mapExcept, Except.ok.injEq] at h
    subst h
    simp at hr
  | cons a rest ih =>
    simp only [mapExcept] at h
    cases hfa : f a with
    | error e => rw [hfa] at h; simp at h
    | ok b =>
      rw [hfa] at h
      cases hrest : mapExcept f rest with
      | error e => rw [hrest] at h; simp at h
      | ok bs =>
        rw [hrest] at h
        simp only [Except.ok.injEq] at h
        subst h
        rcases List.mem_cons.mp hr with hrb | hrtail
        · subst hrb
          exact ⟨a, List.mem_cons_self a rest, hfa⟩
        · rcases ih hrest hrtail with ⟨x, hx, hfx⟩
          exact ⟨x, List.mem_cons_of_mem a hx, hfx⟩

/-- If a throwing find succeeds with a hit, the hit is in the list. -/
theorem findExcept_ok_mem {α ε : Type} {p : α → Except ε Bool} {l : List α} {a : α}
    (h : findExcept p l = .ok (some a)) : a ∈ l := by
  induction l with
  | nil => simp [findExcept] at h
  | cons b rest ih =>
    simp only [findExcept] at h
    cases hpb : p b with
    | error e => rw [hpb] at h; simp at h
    | ok tv =>
      rw [hpb] at h
      cases tv with
      | false => exact List.mem_cons_of_mem b (ih h)
      | true =>
        simp only [Except.ok.injEq, Option.some.injEq] at h
        subst h
        exact List.mem_cons_self b rest

/-- A throwing find skips a leading block of rejected candidates. -/
theorem findExcept_append_false {α ε : Type} {p : α → Except ε Bool} {l1 : List α}
    (h : ∀ b ∈ l1, p b = .ok false) (l2 : List α) :
    findExcept p (l1 ++ l2) = findExcept p l2 := by
  induction l1 with
  | nil => rfl
  | cons b rest ih =>
    have hb := h b (List.mem_cons_self b rest)
    simp only [List.cons_append, findExcept, hb]
    exact ih (fun x hx => h x (List.mem_cons_of_mem b hx))

/-! Claim theorems. -/

/-- Claim C3 (amended): for every chain id at least 1, decoding a recovery
byte with raw value chainId*2+35 (respectively chainId*2+36) while supplying
that chain id yields the same recovery parameter, namely 0 (respectively 1),
as decoding the legacy raw values 27 (respectively 28) without a chain id. -/
theorem chainBound_recovery_matches_legacy (c : Int) (hc : 1 ≤ c) :
    calculateSigRecovery (2 * c + 35) (some c) = calculateSigRecovery 27 none ∧
    calculateSigRecovery (2 * c + 36) (some c) = calculateSigRecovery 28 none ∧
    calculateSigRecovery 27 none = 0 ∧
    calculateSigRecovery 28 none = 1 := by
  simp only [calculateSigRecovery]
  refine ⟨?_, ?_, by norm_num, by norm_num⟩ <;> split_ifs <;> omega

/-- Claim C3 witness: the amended statement applied at chain id 31, the
chain id used in the repository's tests. -/
theorem chainBound_recovery_matches_legacy_witness :
    (1 : Int) ≤ 31 ∧
    calculateSigRecovery (2 * 31 + 35) (some 31) = calculateSigRecovery 27 none :=
  ⟨by norm_num, (chainBound_recovery_matches_legacy 31 (by norm_num)).1⟩

/-- Claim C3 counterexample: for chain id 0 the claim fails.  The raw value
2*0+35 = 35 decoded while supplying chain id 0 yields recovery parameter 8,
not the 0 obtained from the legacy value 27 without a chain id, because a
supplied chain id of 0 is falsy in JavaScript and the legacy branch runs. -/
theorem chain_zero_recovery_mismatch_cex :
    calculateSigRecovery (2 * 0 + 35) (some 0) = 8 ∧
    calculateSigRecovery 27 none = 0 ∧
    calculateSigRecovery (2 * 0 + 35) (some 0) ≠ calculateSigRecovery 27 none := by
  refine ⟨by norm_num [calculateSigRecovery], by norm_num [calculateSigRecovery], ?_⟩
  norm_num [calculateSigRecovery]

/-- Claim C4 (amended): for every algorithm identifier that is neither one
of the four registered names ES256K, ES256K-R, Ed25519, EdDSA nor a
string-keyed property name of the JavaScript `Object.prototype`, the
dispatcher fails with UnsupportedAlgorithm carrying that identifier; the
dispatcher receives no candidates and fails instead of returning a
verifier, so the failure happens at dispatch time, before any candidate
could be examined.  For an `Object.prototype` property name, however, the
object-literal lookup finds the truthy inherited member and the dispatcher
returns it without failing (see the counterexample). -/
theorem verifierAlgorithm_unsupported (P : Prims) (alg : String)
    (h1 : alg ≠ "ES256K") (h2 : alg ≠ "ES256K-R")
    (h3 : alg ≠ "Ed25519") (h4 : alg ≠ "EdDSA") :
    (objectPrototypeProps.contains alg = false →
      VerifierAlgorithm P alg = .error (.unsupportedAlgorithm alg)) ∧
    (objectPrototypeProps.contains alg = true →
      VerifierAlgorithm P alg = .ok (P.protoImpl alg)) := by
  constructor
  · intro hproto
    have hm : ¬ alg ∈ objectPrototypeProps := by simpa using hproto
    simp [VerifierAlgorithm, algorithms, h1, h2, h3, h4, hm]
  · intro hproto
    have hm : alg ∈ objectPrototypeProps := by simpa using hproto
    simp [VerifierAlgorithm, algorithms, h1, h2, h3, h4, hm]

/-- Claim C4 witness: dispatching the unregistered identifier BADALGO
(the identifier used in the repository's tests), which is also no
`Object.prototype` property, fails with UnsupportedAlgorithm. -/
theorem verifierAlgorithm_unsupported_witness :
    VerifierAlgorithm trivPrims badAlg = .error (.unsupportedAlgorithm badAlg) :=
  (verifierAlgorithm_unsupported trivPrims badAlg
    (by decide) (by decide) (by decide) (by decide)).1 (by decide)

/-- Claim C4 counterexample: the identifier toString is not a registered
algorithm, yet the dispatcher does not fail with UnsupportedAlgorithm: the
lookup on the plain object literal finds the truthy member inherited from
`Object.prototype`, the `if (!impl)` guard passes, and the dispatcher
returns the inherited member. -/
theorem dispatcher_inherited_member_cex :
    VerifierAlgorithm trivPrims protoName = .ok (trivPrims.protoImpl protoName) ∧
    VerifierAlgorithm trivPrims protoName ≠
      .error (.unsupportedAlgorithm protoName) := by
  constructor
  · rfl
  · intro h
    exact Except.noConfusion h

/-- Claim C9: the outcome of a verification dispatched under ES256K is
independent of the supplied chain id: the table entry adapting
verifyES256K to the five-argument Verifier shape discards the chain id
(verifyES256K itself takes none, and its address fallback invokes the
recoverer without one), so any two chain ids give identical results on
otherwise identical inputs. -/
theorem es256k_result_chainId_independent (P : Prims) (data signature : String)
    (auths : List PublicKey) (ethPersonal : Bool) (c1 c2 : Option Int) :
    (VerifierAlgorithm P "ES256K").map (fun f => f data signature auths ethPersonal c1) =
    (VerifierAlgorithm P "ES256K").map (fun f => f data signature auths ethPersonal c2) := rfl

/-- Unfolded form of `toSignatureObject` (definitional). -/
theorem toSignatureObject_eq (P : Prims) (signature : String) (recoverable : Bool)
    (chainId : Option Int) :
    toSignatureObject P signature recoverable chainId =
      if (P.base64urlToBytes signature).length ≠ (if recoverable then 65 else 64) then
        .error .wrongSignatureLength
      else if recoverable then
        .ok { r := P.bytesToHex (uslice (P.base64urlToBytes signature) 0 32),
              s := P.bytesToHex (uslice (P.base64urlToBytes signature) 32 64),
              recoveryParam :=
                some (calculateSigRecovery
                  (((P.base64urlToBytes signature).getD 64 0 : Nat) : Int) chainId) }
      else
        .ok { r := P.bytesToHex (uslice (P.base64urlToBytes signature) 0 32),
              s := P.bytesToHex (uslice (P.base64urlToBytes signature) 32 64) } := rfl

/-- Non-recoverable decodes, with the ifs in positive form. -/
theorem toSignatureObject_false_eq (P : Prims) (signature : String) (chainId : Option Int) :
    toSignatureObject P signature false chainId =
      if (P.base64urlToBytes signature).length = 64 then
        .ok { r := P.bytesToHex (uslice (P.base64urlToBytes signature) 0 32),
              s := P.bytesToHex (uslice (P.base64urlToBytes signature) 32 64) }
      else .error .wrongSignatureLength := by
  rw [toSignatureObject_eq]
  simp only [Bool.false_eq_true, if_false]
  by_cases hlen : (P.base64urlToBytes signature).length = 64
  · rw [if_neg (not_not_intro hlen), if_pos hlen]
  · rw [if_pos hlen, if_neg hlen]

/-- Recoverable decodes, with the ifs in positive form. -/
theorem toSignatureObject_true_eq (P : Prims) (signature : String) (chainId : Option Int) :
    toSignatureObject P signature true chainId =
      if (P.base64urlToBytes signature).length = 65 then
        .ok { r := P.bytesToHex (uslice (P.base64urlToBytes signature) 0 32),
              s := P.bytesToHex (uslice (P.base64urlToBytes signature) 32 64),
              recoveryParam :=
                some (calculateSigRecovery
                  (((P.base64urlToBytes signature).getD 64 0 : Nat) : Int) chainId) }
      else .error .wrongSignatureLength := by
  rw [toSignatureObject_eq]
  simp only [eq_self_iff_true, if_true]
  by_cases hlen : (P.base64urlToBytes signature).length = 65
  · rw [if_neg (not_not_intro hlen), if_pos hlen]
  · rw [if_pos hlen, if_neg hlen]

/-- Claim C6: the signature decoder fails with the length error exactly when
the decoded raw byte count differs from 64 (non-recoverable) or 65
(recoverable); the length error is its only error; on success, r is the hex
of raw bytes [0:32) and s the hex of raw bytes [32:64), which the last
conjunct identifies byte by byte with the corresponding raw positions. -/
theorem toSignatureObject_length_error_iff (P : Prims) (signature : String)
    (recoverable : Bool) (chainId : Option Int) :
    (toSignatureObject P signature recoverable chainId = .error .wrongSignatureLength ↔
      (P.base64urlToBytes signature).length ≠ (if recoverable then 65 else 64)) ∧
    (∀ e, toSignatureObject P signature recoverable chainId = .error e →
      e = .wrongSignatureLength) ∧
    (∀ so, toSignatureObject P signature recoverable chainId = .ok so →
      so.r = P.bytesToHex (uslice (P.base64urlToBytes signature) 0 32) ∧
      so.s = P.bytesToHex (uslice (P.base64urlToBytes signature) 32 64) ∧
      (∀ i, i < 32 →
        (uslice (P.base64urlToBytes signature) 0 32).getD i 0 =
          (P.base64urlToBytes signature).getD i 0 ∧
        (uslice (P.base64urlToBytes signature) 32 64).getD i 0 =
          (P.base64urlToBytes signature).getD (32 + i) 0)) := by
  have hslice : ∀ i, i < 32 →
      (uslice (P.base64urlToBytes signature) 0 32).getD i 0 =
        (P.base64urlToBytes signature).getD i 0 ∧
      (uslice (P.base64urlToBytes signature) 32 64).getD i 0 =
        (P.base64urlToBytes signature).getD (32 + i) 0 := by
    intro i hi
    constructor
    · simp only [uslice, List.drop_zero, List.getD_eq_getElem?_getD, List.getElem?_take,
        if_pos hi]
    · simp only [uslice, List.getD_eq_getElem?_getD, List.getElem?_drop, List.getElem?_take]
      rw [if_pos (show 32 + i < 64 by omega)]
  cases recoverable with
  | false =>
    rw [toSignatureObject_false_eq]
    simp only [Bool.false_eq_true, if_false]
    by_cases hlen : (P.base64urlToBytes signature).length = 64
    · rw [if_pos hlen]
      refine ⟨?_, ?_, ?_⟩
      · constructor
        · intro h
          exact absurd h (by simp)
        · intro hc
          exact absurd hlen hc
      · intro e h
        exact absurd h (by simp)
      · intro so h
        replace h := Except.ok.inj h
        subst h
        exact ⟨rfl, rfl, hslice⟩
    · rw [if_neg hlen]
      refine ⟨?_, ?_, ?_⟩
      · exact ⟨fun _ => hlen, fun _ => rfl⟩
      · intro e h
        exact (Except.error.inj h).symm
      · intro so h
        exact absurd h (by simp)
  | true =>
    rw [toSignatureObject_true_eq]
    simp only [eq_self_iff_true, if_true]
    by_cases hlen : (P.base64urlToBytes signature).length = 65
    · rw [if_pos hlen]
      refine ⟨?_, ?_, ?_⟩
      · constructor
        · intro h
          exact absurd h (by simp)
        · intro hc
          exact absurd hlen hc
      · intro e h
        exact absurd h (by simp)
      · intro so h
        replace h := Except.ok.inj h
        subst h
        exact ⟨rfl, rfl, hslice⟩
    · rw [if_neg hlen]
      refine ⟨?_, ?_, ?_⟩
      · exact ⟨fun _ => hlen, fun _ => rfl⟩
      · intro e h
        exact (Except.error.inj h).symm
      · intro so h
        exact absurd h (by simp)

/-- Claim C6 witness: the decoder applied to a 64-byte decode at the
concrete instance; the success equations are obtained from the theorem. -/
theorem toSignatureObject_length_error_iff_witness :
    toSignatureObject trivPrims sig0 false none = .ok sigH ∧
    sigH.r = trivPrims.bytesToHex (uslice (trivPrims.base64urlToBytes sig0) 0 32) :=
  ⟨rfl, (((toSignatureObject_length_error_iff trivPrims sig0 false none).2.2) sigH rfl).1⟩

/-- Claim C5 (amended): a successfully decoded signature object has r and s
that are the hex of 32-byte slices, and its recovery parameter is present
exactly when the decode is recoverable.  When present, the parameter is in
{0,1} provided the raw recovery byte follows the raw 0/1 convention, the
legacy 27/28 convention with no chain id supplied, or the chain-bound
convention with a chain id of at least 1.  (For a chain-bound byte with
chain id 0 the value is not normalized into {0,1}; see the counterexample.) -/
theorem toSignatureObject_invariants (P : Prims) (signature : String)
    (recoverable : Bool) (chainId : Option Int) (so : EcdsaSignature)
    (h : toSignatureObject P signature recoverable chainId = .ok so) :
    (∃ br, br.length = 32 ∧ so.r = P.bytesToHex br) ∧
    (∃ bs, bs.length = 32 ∧ so.s = P.bytesToHex bs) ∧
    so.recoveryParam.isSome = recoverable ∧
    (∀ raw : Int, recoverable = true →
      raw = (((P.base64urlToBytes signature).getD 64 0 : Nat) : Int) →
      (raw = 0 ∨ raw = 1 ∨
        (chainId = none ∧ (raw = 27 ∨ raw = 28)) ∨
        (∃ c, chainId = some c ∧ 1 ≤ c ∧ (raw = 2 * c + 35 ∨ raw = 2 * c + 36))) →
      so.recoveryParam = some 0 ∨ so.recoveryParam = some 1) := by
  cases recoverable with
  | false =>
    rw [toSignatureObject_false_eq] at h
    by_cases hlen : (P.base64urlToBytes signature).length = 64
    · rw [if_pos hlen] at h
      replace h := Except.ok.inj h
      subst h
      refine ⟨⟨uslice (P.base64urlToBytes signature) 0 32, ?_, rfl⟩,
        ⟨uslice (P.base64urlToBytes signature) 32 64, ?_, rfl⟩, rfl, ?_⟩
      · simp only [uslice, List.length_drop, List.length_take, hlen]
        omega
      · simp only [uslice, List.length_drop, List.length_take, hlen]
        omega
      · intro raw hrect _ _
        exact absurd hrect (by simp)
    · rw [if_neg hlen] at h
      exact absurd h (by simp)
  | true =>
    rw [toSignatureObject_true_eq] at h
    by_cases hlen : (P.base64urlToBytes signature).length = 65
    · rw [if_pos hlen] at h
      replace h := Except.ok.inj h
      subst h
      refine ⟨⟨uslice (P.base64urlToBytes signature) 0 32, ?_, rfl⟩,
        ⟨uslice (P.base64urlToBytes signature) 32 64, ?_, rfl⟩, rfl, ?_⟩
      · simp only [uslice, List.length_drop, List.length_take, hlen]
        omega
      · simp only [uslice, List.length_drop, List.length_take, hlen]
        omega
      · intro raw _ hraw hdisj
        dsimp only
        rw [Eq.symm hraw]
        rcases hdisj with h0 | h1 | hleg | hcb
        · rw [h0]
          left
          norm_num [calculateSigRecovery]
        · rw [h1]
          right
          norm_num [calculateSigRecovery]
        · obtain ⟨hcn, h2728⟩ := hleg
          subst hcn
          rcases h2728 with rfl | rfl
          · left
            norm_num [calculateSigRecovery]
          · right
            norm_num [calculateSigRecovery]
        · obtain ⟨c, hcs, hc1, h3536⟩ := hcb
          subst hcs
          rcases h3536 with rfl | rfl
          · left
            simp only [calculateSigRecovery]
            rw [if_neg (by omega), if_pos (show c ≠ 0 by omega)]
            simp only [Option.some.injEq]
            omega
          · right
            simp only [calculateSigRecovery]
            rw [if_neg (by omega), if_pos (show c ≠ 0 by omega)]
            simp only [Option.some.injEq]
            omega
    · rw [if_neg hlen] at h
      exact absurd h (by simp)

/-- Claim C5 witness: a recoverable decode with legacy recovery byte 27 and
no chain id; the theorem yields a recovery parameter in {0,1}. -/
theorem toSignatureObject_invariants_witness :
    toSignatureObject c5wPrims sig0 true none = .ok c5So ∧
    (c5So.recoveryParam = some 0 ∨ c5So.recoveryParam = some 1) :=
  ⟨rfl,
    (toSignatureObject_invariants c5wPrims sig0 true none c5So rfl).2.2.2 27 rfl rfl
      (Or.inr (Or.inr (Or.inl ⟨rfl, Or.inl rfl⟩)))⟩

/-- Claim C5 counterexample: decoding a 65-byte signature whose recovery
byte is 35 = 2*0+35 (the chain-bound encoding for chain id 0) while
supplying chain id 0 produces recoveryParam 8, which is not in {0,1}:
the recovery parameter is not always normalized. -/
theorem recoveryParam_not_normalized_cex :
    toSignatureObject c5cPrims sig0 true (some 0) = .ok c5cSo ∧
    c5cSo.recoveryParam = some 8 ∧
    ¬ (c5cSo.recoveryParam = some 0 ∨ c5cSo.recoveryParam = some 1) := by
  refine ⟨rfl, rfl, ?_⟩
  decide

/-- Claim C2: in `verifyRecoverableES256K`, an encoded signature longer
than 86 characters is decoded exactly once as a recoverable signature with
the given chain id and that single attempt decides the result; otherwise
two signature objects with recovery parameters 0 and 1 are tried in that
order, and when both attempts complete the result is the first match in
that order (parity 0 before parity 1), with SignatureInvalid only when
neither matches. -/
theorem verifyRecoverableES256K_attempt_order (P : Prims) (data signature : String)
    (authenticators : List PublicKey) (ethPersonal : Bool) (chainId : Option Int) :
    (signature.length > 86 →
      verifyRecoverableES256K P data signature authenticators ethPersonal chainId =
        match toSignatureObject P signature true chainId with
        | .error e => .error e
        | .ok s =>
          match checkSignatureAgainstSigner P data authenticators ethPersonal s with
          | .error e => .error e
          | .ok (some k) => .ok k
          | .ok none => .error .signatureInvalid) ∧
    (¬ signature.length > 86 →
      ∀ so, toSignatureObject P signature false chainId = .ok so →
      ∀ o0 o1,
        checkSignatureAgainstSigner P data authenticators ethPersonal
          { so with recoveryParam := some 0 } = .ok o0 →
        checkSignatureAgainstSigner P data authenticators ethPersonal
          { so with recoveryParam := some 1 } = .ok o1 →
        verifyRecoverableES256K P data signature authenticators ethPersonal chainId =
          match o0, o1 with
          | some k, _ => .ok k
          | none, some k => .ok k
          | none, none => .error .signatureInvalid) := by
  constructor
  · intro h86
    simp only [verifyRecoverableES256K, recoverableSigCandidates, if_pos h86]
    cases htso : toSignatureObject P signature true chainId with
    | error e => rfl
    | ok s =>
      cases hc : checkSignatureAgainstSigner P data authenticators ethPersonal s with
      | error e => simp [mapExcept, hc]
      | ok o =>
        cases o with
        | none => simp [mapExcept, hc]
        | some k => simp [mapExcept, hc]
  · intro h86 so hso o0 o1 h0 h1
    simp only [verifyRecoverableES256K, recoverableSigCandidates, if_neg h86, hso]
    cases o0 with
    | some k => simp [mapExcept, h0, h1]
    | none =>
      cases o1 with
      | some k => simp [mapExcept, h0, h1]
      | none => simp [mapExcept, h0, h1]

/-- Claim C2 witness: a 1-character (hence not longer than 86) encoded
signature under primitives where the parity-0 attempt misses and the
parity-1 attempt matches; the match is returned. -/
theorem verifyRecoverableES256K_attempt_order_witness :
    verifyRecoverableES256K c2Prims msg0 sig0 [c2Auth] false none = .ok c2Auth :=
  (verifyRecoverableES256K_attempt_order c2Prims msg0 sig0 [c2Auth] false none).2
    (by decide) sigH rfl none (some c2Auth) rfl rfl

/-- Claim C1 (amended): a primitive failure is caught and treated as a
non-match only in the ES256K key scan: inserting a key-bearing candidate
whose key decode/verify always throws anywhere into the candidate list
leaves the result of verifyES256K unchanged, so such a candidate never
blocks a later valid one there.  (In the ES256K-R recovery attempts and
the Ed25519 scan a primitive failure is not caught and aborts the scan;
see the counterexample.) -/
theorem es256k_key_scan_catches_primitive_failure (P : Prims) (data signature : String)
    (pre post : List PublicKey) (a : PublicKey) (pk : String)
    (hpk : a.publicKeyHex = some pk)
    (haddr : a.ethereumAddress = none)
    (hbad : ∀ h s, P.keyVerify pk h s = none)
    (ethPersonal : Bool) :
    verifyES256K P data signature (pre ++ a :: post) ethPersonal =
      verifyES256K P data signature (pre ++ post) ethPersonal := by
  simp only [verifyES256K]
  cases htso : toSignatureObject P signature false none with
  | error e => rfl
  | ok sigObj =>
    dsimp only
    have hfalse :
        es256kKeyCheck P (sha256OrPersonal P data ethPersonal) sigObj a = false := by
      simp [es256kKeyCheck, hpk, hbad]
    have e1 : (pre ++ a :: post).filter (fun x : PublicKey => x.publicKeyHex.isSome) =
        pre.filter (fun x : PublicKey => x.publicKeyHex.isSome) ++
          a :: post.filter (fun x : PublicKey => x.publicKeyHex.isSome) := by
      rw [List.filter_append, List.filter_cons_of_pos (by simp [hpk])]
    have e2 : (pre ++ a :: post).filter (fun x : PublicKey => x.ethereumAddress.isSome) =
        (pre ++ post).filter (fun x : PublicKey => x.ethereumAddress.isSome) := by
      rw [List.filter_append, List.filter_cons_of_neg (by simp [haddr]), List.filter_append]
    rw [e1, e2]
    rw [List.find?_append, List.find?_cons_of_neg _ (by simp [hfalse]),
      ← List.find?_append, ← List.filter_append]

/-- Claim C1 witness: a candidate whose key decode always throws, placed
ahead of a valid candidate, leaves the ES256K result unchanged. -/
theorem es256k_key_scan_catches_primitive_failure_witness :
    verifyES256K c1wPrims msg0 sig0 [aBadKey, aGoodKey] false =
      verifyES256K c1wPrims msg0 sig0 [aGoodKey] false :=
  es256k_key_scan_catches_primitive_failure c1wPrims msg0 sig0 [] [aGoodKey]
    aBadKey "BAD" rfl rfl (fun _ _ => rfl) false

/-- Claim C1 counterexample: the claim fails for the Ed25519 scan and the
ES256K-R recovery attempts.  Under `c1CexEdPrims` the primitive throws on
the first candidate's key material, and verifyEd25519 propagates the
exception instead of returning the second candidate, which the primitive
accepts.  Under `c1CexRecPrims` recovery throws for parity 0, and
verifyRecoverableES256K propagates the exception instead of trying parity
1, which would have matched the address candidate. -/
theorem uncaught_primitive_failure_aborts_scan_cex :
    (verifyEd25519 c1CexEdPrims msg0 sig0 [edBad, edGood] = .error .primitiveFailure ∧
      ed25519KeyCheck c1CexEdPrims (c1CexEdPrims.encodeUtf8 msg0)
        (c1CexEdPrims.base64urlToBytes sig0) edGood = .ok true) ∧
    (verifyRecoverableES256K c1CexRecPrims msg0 sig0 [cAddr0] false none =
        .error .primitiveFailure ∧
      checkSignatureAgainstSigner c1CexRecPrims msg0 [cAddr0] false sigH1 =
        .ok (some cAddr0)) :=
  ⟨⟨rfl, rfl⟩, ⟨rfl, rfl⟩⟩

/-- Claim C7: when the key scan of verifyES256K finds no match and at least
one address-bearing candidate exists, the result is exactly that of the
recoverer run on the address candidates (with no chain id): the first
match there in scan order is returned, and SignatureInvalid arises only if
the recovery fallback also fails. -/
theorem verifyES256K_address_fallback (P : Prims) (data signature : String)
    (auths : List PublicKey) (ethPersonal : Bool) (so : EcdsaSignature)
    (hso : toSignatureObject P signature = .ok so)
    (hkeys : (auths.filter (fun a => a.publicKeyHex.isSome)).find?
        (es256kKeyCheck P (sha256OrPersonal P data ethPersonal) so) = none)
    (haddr : (auths.filter (fun a => a.ethereumAddress.isSome)).length > 0) :
    verifyES256K P data signature auths ethPersonal =
      verifyRecoverableES256K P data signature
        (auths.filter (fun a => a.ethereumAddress.isSome)) ethPersonal := by
  simp only [verifyES256K, hso, hkeys, if_pos haddr]

/-- Claim C7 witness: a key-bearing candidate that does not verify plus an
address candidate; the fallback equality applied at this instance. -/
theorem verifyES256K_address_fallback_witness :
    verifyES256K c7Prims msg0 sig0 [aHex7, aAddr7] false =
      verifyRecoverableES256K c7Prims msg0 sig0
        ([aHex7, aAddr7].filter (fun a => a.ethereumAddress.isSome)) false :=
  verifyES256K_address_fallback c7Prims msg0 sig0 [aHex7, aAddr7] false sigH
    rfl rfl (by decide)

/-- A matching recovery check pins its hit to the candidate list. -/
theorem checkSignatureAgainstSigner_mem {P : Prims} {data : String}
    {auths : List PublicKey} {ep : Bool} {so : EcdsaSignature} {k : PublicKey}
    (h : checkSignatureAgainstSigner P data auths ep so = .ok (some k)) : k ∈ auths := by
  simp only [checkSignatureAgainstSigner] at h
  cases hrec : P.recoverPubKey (sha256OrPersonal P data ep) so so.recoveryParam with
  | none =>
    rw [hrec] at h
    exact absurd h (by simp)
  | some key =>
    rw [hrec] at h
    exact List.mem_of_find?_eq_some (Except.ok.inj h)

/-- A successful recoverable verification returns a list entry. -/
theorem verifyRecoverableES256K_mem {P : Prims} {data signature : String}
    {auths : List PublicKey} {ep : Bool} {cid : Option Int} {k : PublicKey}
    (h : verifyRecoverableES256K P data signature auths ep cid = .ok k) : k ∈ auths := by
  simp only [verifyRecoverableES256K] at h
  cases hE : recoverableSigCandidates P signature cid with
  | error e =>
    simp only [hE] at h
    exact absurd h (by simp)
  | ok signatures =>
    simp only [hE] at h
    cases hm : mapExcept (checkSignatureAgainstSigner P data auths ep) signatures with
    | error e =>
      simp only [hm] at h
      exact absurd h (by simp)
    | ok results =>
      simp only [hm] at h
      cases hf : results.filterMap id with
      | nil =>
        simp only [hf] at h
        exact absurd h (by simp)
      | cons s rest =>
        simp only [hf] at h
        replace h := Except.ok.inj h
        subst h
        have hs : s ∈ results.filterMap id := by
          rw [hf]
          exact List.mem_cons_self s rest
        rcases List.mem_filterMap.mp hs with ⟨o, ho, hid⟩
        rcases mapExcept_ok_mem hm ho with ⟨sg, _, hcheck⟩
        have hok : o = some s := hid
        subst hok
        exact checkSignatureAgainstSigner_mem hcheck

/-- A successful Ed25519 verification returns a list entry. -/
theorem verifyEd25519_mem {P : Prims} {data signature : String}
    {auths : List PublicKey} {k : PublicKey}
    (h : verifyEd25519 P data signature auths = .ok k) : k ∈ auths := by
  simp only [verifyEd25519] at h
  cases hf : findExcept (ed25519KeyCheck P (P.encodeUtf8 data)
      (P.base64urlToBytes signature)) auths with
  | error e =>
    rw [hf] at h
    exact absurd h (by simp)
  | ok o =>
    rw [hf] at h
    cases o with
    | none => exact absurd h (by simp)
    | some s =>
      replace h := Except.ok.inj h
      subst h
      exact findExcept_ok_mem hf

/-- A successful ES256K verification returns a list entry. -/
theorem verifyES256K_mem {P : Prims} {data signature : String}
    {auths : List PublicKey} {ep : Bool} {k : PublicKey}
    (h : verifyES256K P data signature auths ep = .ok k) : k ∈ auths := by
  simp only [verifyES256K] at h
  cases htso : toSignatureObject P signature false none with
  | error e =>
    simp only [htso] at h
    exact absurd h (by simp)
  | ok sigObj =>
    simp only [htso] at h
    cases hfind : (auths.filter (fun a => a.publicKeyHex.isSome)).find?
        (es256kKeyCheck P (sha256OrPersonal P data ep) sigObj) with
    | some signer =>
      simp only [hfind] at h
      replace h := Except.ok.inj h
      subst h
      exact List.mem_of_mem_filter (List.mem_of_find?_eq_some hfind)
    | none =>
      simp only [hfind] at h
      by_cases hlen : (auths.filter (fun a => a.ethereumAddress.isSome)).length > 0
      · rw [if_pos hlen] at h
        exact List.mem_of_mem_filter (verifyRecoverableES256K_mem h)
      · rw [if_neg hlen] at h
        exact absurd h (by simp)

/-- Claim C8: whenever any of the three verifiers succeeds, the returned
descriptor is one of the entries of the input candidate list (in this pure
model, identity of the winning JavaScript object corresponds to list
membership of the returned value: every success path returns the result of
a find over the input list or one of its filtered sublists, never a
reconstructed descriptor). -/
theorem verify_result_mem_candidates (P : Prims) (data signature : String)
    (auths : List PublicKey) (ethPersonal : Bool) (chainId : Option Int) (k : PublicKey) :
    (verifyES256K P data signature auths ethPersonal = .ok k → k ∈ auths) ∧
    (verifyRecoverableES256K P data signature auths ethPersonal chainId = .ok k → k ∈ auths) ∧
    (verifyEd25519 P data signature auths = .ok k → k ∈ auths) :=
  ⟨fun h => verifyES256K_mem h,
   fun h => verifyRecoverableES256K_mem h,
   fun h => verifyEd25519_mem h⟩

/-- Claim C8 witness: an Ed25519 success whose returned descriptor is in
the candidate list. -/
theorem verify_result_mem_candidates_witness :
    verifyEd25519 c8Prims msg0 sig0 [a8] = .ok a8 ∧ a8 ∈ [a8] :=
  ⟨rfl, (verify_result_mem_candidates c8Prims msg0 sig0 [a8] false none a8).2.2 rfl⟩

/-- Claim C10: verifyEd25519 applies no key-type filter: it scans the whole
candidate list in order, hands each candidate's publicKeyBase64 field
(absent or not) to the check built on the Ed25519 primitive, and returns
the first candidate the primitive accepts over the UTF-8 bytes of the
signing input. -/
theorem verifyEd25519_first_accept (P : Prims) (data signature : String)
    (pre : List PublicKey) (a : PublicKey) (post : List PublicKey)
    (hpre : ∀ b ∈ pre,
      ed25519KeyCheck P (P.encodeUtf8 data) (P.base64urlToBytes signature) b = .ok false)
    (ha : ed25519KeyCheck P (P.encodeUtf8 data) (P.base64urlToBytes signature) a = .ok true) :
    verifyEd25519 P data signature (pre ++ a :: post) = .ok a := by
  simp only [verifyEd25519]
  rw [findExcept_append_false hpre]
  simp only [findExcept, ha]

/-- Claim C10 witness: a candidate with no publicKeyBase64 field at all is
still checked (the absent field is handed to the codec and the primitive)
and is returned when the primitive accepts, after a rejected key-bearing
candidate earlier in the list. -/
theorem verifyEd25519_first_accept_witness :
    verifyEd25519 c10Prims msg0 sig0 [b10, a10] = .ok a10 := by
  have hpre : ∀ b ∈ [b10],
      ed25519KeyCheck c10Prims (c10Prims.encodeUtf8 msg0)
        (c10Prims.base64urlToBytes sig0) b = .ok false := by
    intro b hb
    rw [List.mem_singleton] at hb
    subst hb
    rfl
  exact verifyEd25519_first_accept c10Prims msg0 sig0 [b10] a10 [] hpre rfl

end DidJwt
